import Mathlib

/-!
Shallow embedding of the campaign-building layer of `emodpy_malaria`:
`interventions/common.py` (diagnostic builder and the two campaign-event
builders) and `interventions/spacespraying.py` (space-spraying and
spatial-repellent builders).

Python conventions are modelled explicitly:
  * floats become `ℚ`, ints become `Int`, `None`-able arguments become `Option`;
  * a Python `raise ValueError` becomes an error value; the campaign-mutating
    builders return the campaign state together with an optional raised error,
    so that "the campaign is unchanged on error" is statable;
  * Python truthiness of the dynamically typed intervention arguments
    (`None`, a schema object, or a list) is modelled by `PyIntervArg.truthy`.

External `emod_api` helpers that these functions call (the schema factory,
`ScheduledCampaignEvent`, `TriggeredCampaignEvent`, `do_nodes`,
`get_waning_from_params`, `_convert_prs`) are modelled as record builders that
store the keyword arguments they receive, following their documented behaviour.
-/

/-- A raised Python exception. -/
inductive BuilderError where
  | valueError (msg : String)
deriving DecidableEq

/-- One entry of a property-restrictions list: Python callers pass either a
dict of key-value pairs or a "Key:Value" string. -/
inductive PropRestriction where
  | dict (pairs : List (String × String))
  | str (s : String)
deriving DecidableEq

/-- The waning-effect object returned by the external
`emod_api.interventions.utils.get_waning_from_params` helper. -/
inductive WaningEffect where
  | constant (initialEffect : ℚ)
  | box (initialEffect boxDuration : ℚ)
  | boxExponential (initialEffect boxDuration decayTimeConstant : ℚ)
deriving DecidableEq

/-- Models the external `emod_api` helper `get_waning_from_params`: a box
duration of `-1` yields a constant effect, a zero decay time constant a box
effect, and otherwise a box-exponential effect. -/
def get_waning_from_params (initial box_duration decay_time_constant : ℚ) : WaningEffect :=
  if box_duration = -1 then WaningEffect.constant initial
  else if decay_time_constant = 0 then WaningEffect.box initial box_duration
  else WaningEffect.boxExponential initial box_duration decay_time_constant

/-- A node-targeted spray-type intervention object as configured by
`_space_spraying` / `_spatial_repellent`: the schema class instantiated via
`get_class_with_defaults` plus the fields those builders assign.  `Killing_Config`
and `Repelling_Config` start out unset (schema default) and are `some` only when
a builder assigns them. -/
structure SprayIntervention where
  className : String
  interventionName : String
  insecticideName : String
  sprayCoverage : ℚ
  costToConsumer : ℚ
  disqualifyingProperties : Option (List String)
  dontAllowDuplicates : Int
  newPropertyValue : String
  killingConfig : Option WaningEffect := none
  repellingConfig : Option WaningEffect := none
deriving DecidableEq

/-- An individual- or node-targeted intervention object. -/
inductive Intervention where
  | standardDiagnostic
  | malariaDiagnostic (measurementSensitivity detectionThreshold : ℚ) (diagnosticType : String)
  | spray (s : SprayIntervention)
deriving DecidableEq

/-- The dynamically typed (`any`) intervention arguments of the event
builders: Python `None`, a single schema object, or a list of objects
(each list slot may itself be `None`). -/
inductive PyIntervArg where
  | pyNone
  | obj (i : Intervention)
  | list (xs : List (Option Intervention))
deriving DecidableEq

/-- Python truthiness of an intervention argument: `None` and the empty list
are falsy, schema objects and non-empty lists are truthy. -/
def PyIntervArg.truthy : PyIntervArg → Bool
  | .pyNone => false
  | .obj _ => true
  | .list xs => !xs.isEmpty

/-- The Python idiom `x if isinstance(x, list) else [x]` used by both event
builders to normalise an intervention argument into a list. -/
def PyIntervArg.wrapList : PyIntervArg → List (Option Intervention)
  | .pyNone => [none]
  | .obj i => [some i]
  | .list xs => xs

/-- The `Nodeset_Config` produced by the external `emod_api` helper
`utils.do_nodes`: a truthy node-id list yields a node-list config, otherwise
all nodes are targeted. -/
inductive NodesetConfig where
  | all
  | nodeList (ids : List Nat)
deriving DecidableEq

/-- Models the external `emod_api` helper `utils.do_nodes`. -/
def do_nodes (node_ids : Option (List Nat)) : NodesetConfig :=
  match node_ids with
  | none => NodesetConfig.all
  | some ids => if ids.isEmpty then NodesetConfig.all else NodesetConfig.nodeList ids

/-- The `Intervention_Config` slot of a `StandardEventCoordinator` in the
node-intervention branch of `add_campaign_event`: unset (schema default), the
node intervention itself, or a `MultiNodeInterventionDistributor` wrapping a
list of node interventions. -/
inductive NodeInterventionConfig where
  | unset
  | direct (x : PyIntervArg)
  | multiDistributor (interventionList : List (Option Intervention))
deriving DecidableEq

/-- A `StandardEventCoordinator` schema object.  The field defaults model the
schema defaults returned by the external factory
`get_class_with_defaults("StandardEventCoordinator", schema_path)`
(demographic coverage 1, no targeting restrictions). -/
structure StandardEventCoordinator where
  numberRepetitions : Int := 1
  timestepsBetweenRepetitions : Int := 365
  demographicCoverage : ℚ := 1
  propertyRestrictions : Option (List PropRestriction) := none
  nodePropertyRestrictions : Option (List PropRestriction) := none
  targetAgeMin : ℚ := 0
  targetAgeMax : ℚ := 125
  targetGender : String := "All"
  targetResidentsOnly : Bool := false
  targetNumIndividuals : Option Int := none
  interventionList : List (Option Intervention) := []
  interventionConfig : NodeInterventionConfig := NodeInterventionConfig.unset
deriving DecidableEq

/-- The coordinator object with all schema defaults, as produced by the
external schema factory. -/
def defaultStandardEventCoordinator : StandardEventCoordinator := {}

/-- A `CampaignEvent` schema object: start day, nodeset and its event
coordinator.  Both branches of `add_campaign_event` produce one. -/
structure CampaignEventObj where
  startDay : Int
  eventName : String := ""
  nodesetConfig : NodesetConfig := NodesetConfig.all
  coordinator : StandardEventCoordinator
deriving DecidableEq

/-- The trigger-based event built by the external `emod_api` helper
`common.TriggeredCampaignEvent`, flattened to the keyword arguments
`add_triggered_campaign_delay_event` passes plus the two property-restriction
slots it assigns afterwards on the inner intervention config. -/
structure TriggeredEvent where
  startDay : Int
  eventName : String
  triggers : List String
  interventionList : List (Option Intervention)
  nodeIds : Option (List Nat)
  timestepsBetweenRepetitions : Int
  numberRepetitions : Int
  targetGender : String
  targetAgeMax : ℚ
  targetAgeMin : ℚ
  targetResidentsOnly : Int
  duration : Int
  demographicCoverage : ℚ
  delay : ℚ
  disqualifyingProperties : Option (List String)
  blackoutPeriod : ℚ
  blackoutEventTrigger : Option String
  blackoutOnFirstOccurrence : Bool
  propertyRestrictionsWithinNode : Option (List PropRestriction) := none
  propertyRestrictions : Option (List PropRestriction) := none
deriving DecidableEq

/-- An event appended to a campaign: either a triggered event or a scheduled
`CampaignEvent` object. -/
inductive CampaignEvent where
  | triggered (e : TriggeredEvent)
  | scheduled (e : CampaignEventObj)
deriving DecidableEq

/-- The campaign object: a schema path and the list of added events. -/
structure Campaign where
  schemaPath : String
  events : List CampaignEvent
deriving DecidableEq

/-- `campaign.add(event)` appends the event to the campaign's event list. -/
def Campaign.add (c : Campaign) (e : CampaignEvent) : Campaign :=
  { c with events := c.events ++ [e] }

/-- The coordinator of a scheduled event, `none` for a triggered event.
Projection used to state properties of the events a builder appended. -/
def CampaignEvent.scheduledCoordinator : CampaignEvent → Option StandardEventCoordinator
  | CampaignEvent.scheduled e => some e.coordinator
  | CampaignEvent.triggered _ => none

/-- `_malaria_diagnostic` from `interventions/common.py`: for
`TRUE_INFECTION_STATUS` it validates that the two numeric parameters are left
at zero (Python float truthiness) and builds a `StandardDiagnostic`; every
other diagnostic type builds a `MalariaDiagnostic` carrying the arguments. -/
def _malaria_diagnostic (campaign : Campaign)
    (diagnostic_type : String) (measurement_sensitivity detection_threshold : ℚ) :
    Except BuilderError Intervention :=
  if diagnostic_type = "TRUE_INFECTION_STATUS" then
    if measurement_sensitivity ≠ 0 ∨ detection_threshold ≠ 0 then
      Except.error (BuilderError.valueError
        ("MalariaDiagnostic invoked with 'TRUE_INFECTION_STATUS' and values " ++
         "of either measurement_sensitivity or detection_threshold params (or both). " ++
         "Those parameters are not used for TRUE_INFECTION_STATUS."))
    else
      Except.ok Intervention.standardDiagnostic
  else
    Except.ok (Intervention.malariaDiagnostic measurement_sensitivity detection_threshold
      diagnostic_type)

/-- Models the external `emod_api` helper `utils._convert_prs`: normalises the
optional property-restrictions argument, with `None` becoming the empty
list and a given list passed through. -/
def _convert_prs : Option (List PropRestriction) → List PropRestriction
  | none => []
  | some xs => xs

/-- The post-construction step of `add_triggered_campaign_delay_event`: Python
assigns the converted restrictions to `Property_Restrictions_Within_Node` of
the inner intervention config when the list is non-empty and its first element
is a dict, and to `Property_Restrictions` otherwise. -/
def TriggeredEvent.setRestrictions (e : TriggeredEvent) (rs : List PropRestriction) :
    TriggeredEvent :=
  match rs with
  | PropRestriction.dict _ :: _ => { e with propertyRestrictionsWithinNode := some rs }
  | _ => { e with propertyRestrictions := some rs }

/-- `add_triggered_campaign_delay_event` from `interventions/common.py`:
raises unless a truthy `trigger_condition_list` is given, then builds a
`TriggeredCampaignEvent` from its keyword arguments, assigns the property
restrictions, and appends the event to the campaign.  The result pairs the
(possibly updated) campaign with the raised error, if any. -/
def add_triggered_campaign_delay_event (campaign : Campaign)
    (start_day : Int)
    (trigger_condition_list : Option (List String))
    (listening_duration : Int)
    (delay_period_constant : ℚ)
    (demographic_coverage : ℚ)
    (node_ids : Option (List Nat))
    (repetitions : Int)
    (timesteps_between_repetitions : Int)
    (ind_property_restrictions : Option (List PropRestriction))
    (disqualifying_properties : Option (List String))
    (target_age_min : ℚ)
    (target_age_max : ℚ)
    (target_gender : String)
    (target_residents_only : Bool)
    (blackout_event_trigger : Option String)
    (blackout_period : ℚ)
    (blackout_on_first_occurrence : Bool)
    (individual_intervention : PyIntervArg) :
    Campaign × Option BuilderError :=
  match trigger_condition_list with
  | none => (campaign, some (BuilderError.valueError "Please define trigger_condition_list.\n"))
  | some triggers =>
    if triggers.isEmpty then
      (campaign, some (BuilderError.valueError "Please define trigger_condition_list.\n"))
    else
      let event : TriggeredEvent :=
        { startDay := start_day
          eventName := "TriggeredEvent"
          triggers := triggers
          interventionList := individual_intervention.wrapList
          nodeIds := node_ids
          timestepsBetweenRepetitions := timesteps_between_repetitions
          numberRepetitions := repetitions
          targetGender := target_gender
          targetAgeMax := target_age_max
          targetAgeMin := target_age_min
          targetResidentsOnly := if target_residents_only then 1 else 0
          duration := listening_duration
          demographicCoverage := demographic_coverage
          delay := delay_period_constant
          disqualifyingProperties := disqualifying_properties
          blackoutPeriod := blackout_period
          blackoutEventTrigger := blackout_event_trigger
          blackoutOnFirstOccurrence := blackout_on_first_occurrence }
      let event := event.setRestrictions (_convert_prs ind_property_restrictions)
      (campaign.add (CampaignEvent.triggered event), none)

/-- Models the external `emod_api` helper `common.ScheduledCampaignEvent`: it
builds a `CampaignEvent` whose `Event_Coordinator_Config` is a
`StandardEventCoordinator` carrying the given repetition, coverage, targeting
and restriction keyword arguments and the intervention list. -/
def ScheduledCampaignEvent (Start_Day : Int) (Node_Ids : Option (List Nat))
    (Number_Repetitions Timesteps_Between_Repetitions : Int) (Event_Name : String)
    (Demographic_Coverage : ℚ) (Property_Restrictions : Option (List PropRestriction))
    (Target_Age_Min Target_Age_Max : ℚ) (Target_Gender : String)
    (Target_Residents_Only : Bool) (Intervention_List : List (Option Intervention)) :
    CampaignEventObj :=
  { startDay := Start_Day
    eventName := Event_Name
    nodesetConfig := do_nodes Node_Ids
    coordinator :=
      { numberRepetitions := Number_Repetitions
        timestepsBetweenRepetitions := Timesteps_Between_Repetitions
        demographicCoverage := Demographic_Coverage
        propertyRestrictions := Property_Restrictions
        targetAgeMin := Target_Age_Min
        targetAgeMax := Target_Age_Max
        targetGender := Target_Gender
        targetResidentsOnly := Target_Residents_Only
        interventionList := Intervention_List } }

/-- `add_campaign_event` from `interventions/common.py`: validates that
exactly one of the two intervention arguments is truthy; a truthy individual
intervention is routed through the external `ScheduledCampaignEvent` helper
(plus the post-hoc `Target_Num_Individuals` assignment), otherwise a raw
`CampaignEvent` is built whose `StandardEventCoordinator` receives only the
repetition counts and node property restrictions, with the node intervention
(or a `MultiNodeInterventionDistributor` around a list of them) as its
intervention config.  The result pairs the campaign with the raised error,
if any. -/
def add_campaign_event (campaign : Campaign)
    (start_day : Int)
    (demographic_coverage : ℚ)
    (target_num_individuals : Option Int)
    (node_ids : Option (List Nat))
    (repetitions : Int)
    (timesteps_between_repetitions : Int)
    (ind_property_restrictions : Option (List PropRestriction))
    (node_property_restrictions : Option (List PropRestriction))
    (target_age_min : ℚ)
    (target_age_max : ℚ)
    (target_gender : String)
    (target_residents_only : Bool)
    (individual_intervention : PyIntervArg)
    (node_intervention : PyIntervArg) :
    Campaign × Option BuilderError :=
  if individual_intervention.truthy && node_intervention.truthy then
    (campaign, some (BuilderError.valueError
      "You cannot define both individual_intervention and node_intervention, only one.\n"))
  else if !individual_intervention.truthy && !node_intervention.truthy then
    (campaign, some (BuilderError.valueError
      "Please pass in either individual_intervention or node_intervention.\n"))
  else if individual_intervention.truthy then
    let event := ScheduledCampaignEvent start_day node_ids repetitions
      timesteps_between_repetitions "ScheduledCampaignEvent" demographic_coverage
      ind_property_restrictions target_age_min target_age_max target_gender
      target_residents_only individual_intervention.wrapList
    let event := { event with coordinator :=
      { event.coordinator with targetNumIndividuals := target_num_individuals } }
    (campaign.add (CampaignEvent.scheduled event), none)
  else
    let intervention : NodeInterventionConfig :=
      match node_intervention with
      | PyIntervArg.list xs => NodeInterventionConfig.multiDistributor xs
      | x => NodeInterventionConfig.direct x
    let coordinator := { defaultStandardEventCoordinator with
      numberRepetitions := repetitions
      timestepsBetweenRepetitions := timesteps_between_repetitions
      nodePropertyRestrictions := node_property_restrictions
      interventionConfig := intervention }
    let event : CampaignEventObj :=
      { startDay := start_day
        nodesetConfig := do_nodes node_ids
        coordinator := coordinator }
    (campaign.add (CampaignEvent.scheduled event), none)

/-- The module-level `iv_name` constant of `interventions/spacespraying.py`. -/
def iv_name : String := "SpaceSpraying"

/-- `_space_spraying` from `interventions/spacespraying.py`: instantiates the
`SpaceSpraying` schema class and assigns its fields, with `Killing_Config`
set to the waning effect built from the three killing parameters. -/
def _space_spraying (campaign : Campaign)
    (spray_coverage : ℚ) (insecticide : String)
    (killing_initial_effect killing_box_duration killing_decay_time_constant : ℚ)
    (intervention_name : String) (cost_to_consumer : ℚ)
    (disqualifying_properties : Option (List String))
    (dont_allow_duplicates : Bool) (new_property_value : String) : SprayIntervention :=
  { className := "SpaceSpraying"
    interventionName := intervention_name
    insecticideName := insecticide
    sprayCoverage := spray_coverage
    costToConsumer := cost_to_consumer
    disqualifyingProperties := disqualifying_properties
    dontAllowDuplicates := if dont_allow_duplicates then 1 else 0
    newPropertyValue := new_property_value
    killingConfig := some (get_waning_from_params killing_initial_effect
      killing_box_duration killing_decay_time_constant) }

/-- `_spatial_repellent` from `interventions/spacespraying.py`: instantiates
the `SpatialRepelling` schema class and assigns its fields; the waning effect
built from the three repelling parameters is assigned to `Killing_Config`
(no `Repelling_Config` assignment appears in the source). -/
def _spatial_repellent (campaign : Campaign)
    (spray_coverage : ℚ) (insecticide : String)
    (repelling_initial_effect repelling_box_duration repelling_decay_time_constant : ℚ)
    (intervention_name : String) (cost_to_consumer : ℚ)
    (disqualifying_properties : Option (List String))
    (dont_allow_duplicates : Bool) (new_property_value : String) : SprayIntervention :=
  { className := "SpatialRepelling"
    interventionName := intervention_name
    insecticideName := insecticide
    sprayCoverage := spray_coverage
    costToConsumer := cost_to_consumer
    disqualifyingProperties := disqualifying_properties
    dontAllowDuplicates := if dont_allow_duplicates then 1 else 0
    newPropertyValue := new_property_value
    killingConfig := some (get_waning_from_params repelling_initial_effect
      repelling_box_duration repelling_decay_time_constant) }

/-- `add_scheduled_space_spraying` from `interventions/spacespraying.py`:
builds the `SpaceSpraying` node intervention via `_space_spraying` and
delegates scheduling to `add_campaign_event`, passing it as the
`node_intervention` together with the start day, node ids, repetition
parameters and node property restrictions (all other `add_campaign_event`
arguments keep their Python defaults). -/
def add_scheduled_space_spraying (campaign : Campaign)
    (start_day : Int)
    (node_ids : Option (List Nat))
    (node_property_restrictions : Option (List PropRestriction))
    (repetitions : Int)
    (timesteps_between_repetitions : Int)
    (spray_coverage : ℚ) (insecticide : String)
    (killing_initial_effect killing_box_duration killing_decay_time_constant : ℚ)
    (intervention_name : String) (cost_to_consumer : ℚ)
    (disqualifying_properties : Option (List String))
    (dont_allow_duplicates : Bool) (new_property_value : String) :
    Campaign × Option BuilderError :=
  let node_intervention := _space_spraying campaign spray_coverage insecticide
    killing_initial_effect killing_box_duration killing_decay_time_constant
    intervention_name cost_to_consumer disqualifying_properties
    dont_allow_duplicates new_property_value
  add_campaign_event campaign start_day 1 none node_ids repetitions
    timesteps_between_repetitions none node_property_restrictions 0 125 "All" false
    PyIntervArg.pyNone (PyIntervArg.obj (Intervention.spray node_intervention))

/-- A fresh campaign object with no events, used for concrete evaluations. -/
def sampleCampaign : Campaign := { schemaPath := "", events := [] }

lemma add_campaign_event_shape (campaign : Campaign)
    (start_day : Int) (demographic_coverage : ℚ) (target_num_individuals : Option Int)
    (node_ids : Option (List Nat)) (repetitions timesteps_between_repetitions : Int)
    (ind_property_restrictions node_property_restrictions : Option (List PropRestriction))
    (target_age_min target_age_max : ℚ) (target_gender : String) (target_residents_only : Bool)
    (individual_intervention node_intervention : PyIntervArg) :
    (∃ msg, add_campaign_event campaign start_day demographic_coverage
        target_num_individuals node_ids repetitions timesteps_between_repetitions
        ind_property_restrictions node_property_restrictions target_age_min target_age_max
        target_gender target_residents_only individual_intervention node_intervention =
      (campaign, some (BuilderError.valueError msg))) ∨
    (∃ e, add_campaign_event campaign start_day demographic_coverage
        target_num_individuals node_ids repetitions timesteps_between_repetitions
        ind_property_restrictions node_property_restrictions target_age_min target_age_max
        target_gender target_residents_only individual_intervention node_intervention =
      (campaign.add e, none)) := by
  unfold add_campaign_event
  cases hii : individual_intervention.truthy <;>
    cases hni : node_intervention.truthy <;> simp

lemma add_triggered_shape (campaign : Campaign)
    (start_day : Int) (trigger_condition_list : Option (List String))
    (listening_duration : Int) (delay_period_constant demographic_coverage : ℚ)
    (node_ids : Option (List Nat)) (repetitions timesteps_between_repetitions : Int)
    (ind_property_restrictions : Option (List PropRestriction))
    (disqualifying_properties : Option (List String))
    (target_age_min target_age_max : ℚ) (target_gender : String) (target_residents_only : Bool)
    (blackout_event_trigger : Option String) (blackout_period : ℚ)
    (blackout_on_first_occurrence : Bool) (individual_intervention : PyIntervArg) :
    (∃ msg, add_triggered_campaign_delay_event campaign start_day trigger_condition_list
        listening_duration delay_period_constant demographic_coverage node_ids repetitions
        timesteps_between_repetitions ind_property_restrictions disqualifying_properties
        target_age_min target_age_max target_gender target_residents_only
        blackout_event_trigger blackout_period blackout_on_first_occurrence
        individual_intervention =
      (campaign, some (BuilderError.valueError msg))) ∨
    (∃ e, add_triggered_campaign_delay_event campaign start_day trigger_condition_list
        listening_duration delay_period_constant demographic_coverage node_ids repetitions
        timesteps_between_repetitions ind_property_restrictions disqualifying_properties
        target_age_min target_age_max target_gender target_residents_only
        blackout_event_trigger blackout_period blackout_on_first_occurrence
        individual_intervention =
      (campaign.add e, none)) := by
  unfold add_triggered_campaign_delay_event
  match trigger_condition_list with
  | none => simp
  | some triggers =>
    by_cases h : triggers.isEmpty <;> simp [h]

/-- C2: `add_campaign_event` enforces mutual exclusion of the two intervention
arguments: it raises a ValueError when both are provided (truthy) and when
neither is provided (both falsy), and when exactly one is provided the
validation passes and the call completes without raising. -/
theorem add_campaign_event_mutual_exclusion (campaign : Campaign)
    (start_day : Int) (demographic_coverage : ℚ) (target_num_individuals : Option Int)
    (node_ids : Option (List Nat)) (repetitions timesteps_between_repetitions : Int)
    (ind_property_restrictions node_property_restrictions : Option (List PropRestriction))
    (target_age_min target_age_max : ℚ) (target_gender : String) (target_residents_only : Bool)
    (individual_intervention node_intervention : PyIntervArg) :
    (add_campaign_event campaign start_day demographic_coverage target_num_individuals
        node_ids repetitions timesteps_between_repetitions ind_property_restrictions
        node_property_restrictions target_age_min target_age_max target_gender
        target_residents_only individual_intervention node_intervention).2 =
      (if individual_intervention.truthy && node_intervention.truthy then
        some (BuilderError.valueError
          "You cannot define both individual_intervention and node_intervention, only one.\n")
      else if !individual_intervention.truthy && !node_intervention.truthy then
        some (BuilderError.valueError
          "Please pass in either individual_intervention or node_intervention.\n")
      else none) := by
  unfold add_campaign_event
  cases hii : individual_intervention.truthy <;>
    cases hni : node_intervention.truthy <;> simp

/-- C9: `add_campaign_event` treats a falsy intervention argument as absent:
an empty-list `individual_intervention` together with a `None`
`node_intervention` raises the "Please pass in either" ValueError even though
an intervention argument was supplied, and symmetrically for an empty-list
`node_intervention`. -/
theorem add_campaign_event_empty_list_treated_absent (campaign : Campaign)
    (start_day : Int) (demographic_coverage : ℚ) (target_num_individuals : Option Int)
    (node_ids : Option (List Nat)) (repetitions timesteps_between_repetitions : Int)
    (ind_property_restrictions node_property_restrictions : Option (List PropRestriction))
    (target_age_min target_age_max : ℚ) (target_gender : String)
    (target_residents_only : Bool) :
    (add_campaign_event campaign start_day demographic_coverage target_num_individuals
        node_ids repetitions timesteps_between_repetitions ind_property_restrictions
        node_property_restrictions target_age_min target_age_max target_gender
        target_residents_only (PyIntervArg.list []) PyIntervArg.pyNone).2 =
      some (BuilderError.valueError
        "Please pass in either individual_intervention or node_intervention.\n") ∧
    (add_campaign_event campaign start_day demographic_coverage target_num_individuals
        node_ids repetitions timesteps_between_repetitions ind_property_restrictions
        node_property_restrictions target_age_min target_age_max target_gender
        target_residents_only PyIntervArg.pyNone (PyIntervArg.list [])).2 =
      some (BuilderError.valueError
        "Please pass in either individual_intervention or node_intervention.\n") :=
  ⟨rfl, rfl⟩

/-- C3: for `diagnostic_type = "TRUE_INFECTION_STATUS"`, `_malaria_diagnostic`
raises a ValueError if and only if `measurement_sensitivity` is nonzero or
`detection_threshold` is nonzero; with both left at zero it returns an
intervention without raising. -/
theorem malaria_diagnostic_true_infection_validation (campaign : Campaign)
    (measurement_sensitivity detection_threshold : ℚ) :
    ((∃ msg, _malaria_diagnostic campaign "TRUE_INFECTION_STATUS"
        measurement_sensitivity detection_threshold =
        Except.error (BuilderError.valueError msg)) ↔
      (measurement_sensitivity ≠ 0 ∨ detection_threshold ≠ 0)) ∧
    (measurement_sensitivity = 0 → detection_threshold = 0 →
      ∃ i, _malaria_diagnostic campaign "TRUE_INFECTION_STATUS"
        measurement_sensitivity detection_threshold = Except.ok i) := by
  unfold _malaria_diagnostic
  by_cases h : measurement_sensitivity ≠ 0 ∨ detection_threshold ≠ 0 <;> (simp [h]; try tauto)

/-- C3 witness: at measurement sensitivity and detection threshold both zero
the call returns an intervention, and at measurement sensitivity 1 it
raises. -/
theorem malaria_diagnostic_true_infection_validation_witness :
    (∃ i, _malaria_diagnostic sampleCampaign "TRUE_INFECTION_STATUS" 0 0 = Except.ok i) ∧
    (∃ msg, _malaria_diagnostic sampleCampaign "TRUE_INFECTION_STATUS" 1 0 =
      Except.error (BuilderError.valueError msg)) :=
  ⟨(malaria_diagnostic_true_infection_validation sampleCampaign 0 0).2 rfl rfl,
   (malaria_diagnostic_true_infection_validation sampleCampaign 1 0).1.mpr
     (Or.inl one_ne_zero)⟩

/-- C6: `_malaria_diagnostic` maps onto exactly two schema object types: for
`TRUE_INFECTION_STATUS` (with the two numeric parameters left at zero) it
returns the `StandardDiagnostic` object, and for every other diagnostic type
it returns a `MalariaDiagnostic` object whose `Measurement_Sensitivity`,
`Detection_Threshold` and `Diagnostic_Type` fields equal the corresponding
arguments. -/
theorem malaria_diagnostic_two_shapes (campaign : Campaign) (diagnostic_type : String)
    (measurement_sensitivity detection_threshold : ℚ) :
    (diagnostic_type = "TRUE_INFECTION_STATUS" →
      measurement_sensitivity = 0 → detection_threshold = 0 →
      _malaria_diagnostic campaign diagnostic_type measurement_sensitivity
        detection_threshold = Except.ok Intervention.standardDiagnostic) ∧
    (diagnostic_type ≠ "TRUE_INFECTION_STATUS" →
      _malaria_diagnostic campaign diagnostic_type measurement_sensitivity
        detection_threshold = Except.ok (Intervention.malariaDiagnostic
          measurement_sensitivity detection_threshold diagnostic_type)) := by
  constructor
  · rintro rfl rfl rfl
    simp [_malaria_diagnostic]
  · intro h
    simp [_malaria_diagnostic, h]

/-- C6 witness: the `TRUE_INFECTION_STATUS` call with zero parameters returns
the StandardDiagnostic object, and a `BLOOD_SMEAR_PARASITES` call returns the
MalariaDiagnostic object carrying its arguments. -/
theorem malaria_diagnostic_two_shapes_witness :
    _malaria_diagnostic sampleCampaign "TRUE_INFECTION_STATUS" 0 0 =
      Except.ok Intervention.standardDiagnostic ∧
    _malaria_diagnostic sampleCampaign "BLOOD_SMEAR_PARASITES" 3 4 =
      Except.ok (Intervention.malariaDiagnostic 3 4 "BLOOD_SMEAR_PARASITES") :=
  ⟨(malaria_diagnostic_two_shapes sampleCampaign "TRUE_INFECTION_STATUS" 0 0).1 rfl rfl rfl,
   (malaria_diagnostic_two_shapes sampleCampaign "BLOOD_SMEAR_PARASITES" 3 4).2 (by decide)⟩

lemma setRestrictions_triggers (e : TriggeredEvent) (rs : List PropRestriction) :
    (e.setRestrictions rs).triggers = e.triggers := by
  unfold TriggeredEvent.setRestrictions
  cases rs with
  | nil => rfl
  | cons r rs => cases r <;> rfl

lemma setRestrictions_interventionList (e : TriggeredEvent) (rs : List PropRestriction) :
    (e.setRestrictions rs).interventionList = e.interventionList := by
  unfold TriggeredEvent.setRestrictions
  cases rs with
  | nil => rfl
  | cons r rs => cases r <;> rfl

/-- C5: `add_triggered_campaign_delay_event` raises a ValueError if and only
if `trigger_condition_list` is None or empty; for every non-empty trigger
list it constructs a trigger-based event carrying those triggers and adds it
to the campaign. -/
theorem triggered_event_trigger_list_validation (campaign : Campaign)
    (start_day : Int) (trigger_condition_list : Option (List String))
    (listening_duration : Int) (delay_period_constant demographic_coverage : ℚ)
    (node_ids : Option (List Nat)) (repetitions timesteps_between_repetitions : Int)
    (ind_property_restrictions : Option (List PropRestriction))
    (disqualifying_properties : Option (List String))
    (target_age_min target_age_max : ℚ) (target_gender : String) (target_residents_only : Bool)
    (blackout_event_trigger : Option String) (blackout_period : ℚ)
    (blackout_on_first_occurrence : Bool) (individual_intervention : PyIntervArg) :
    ((add_triggered_campaign_delay_event campaign start_day trigger_condition_list
        listening_duration delay_period_constant demographic_coverage node_ids repetitions
        timesteps_between_repetitions ind_property_restrictions disqualifying_properties
        target_age_min target_age_max target_gender target_residents_only
        blackout_event_trigger blackout_period blackout_on_first_occurrence
        individual_intervention).2 =
        some (BuilderError.valueError "Please define trigger_condition_list.\n") ↔
      (trigger_condition_list = none ∨ trigger_condition_list = some [])) ∧
    (∀ t ts, trigger_condition_list = some (t :: ts) →
      ∃ e : TriggeredEvent,
        add_triggered_campaign_delay_event campaign start_day trigger_condition_list
          listening_duration delay_period_constant demographic_coverage node_ids repetitions
          timesteps_between_repetitions ind_property_restrictions disqualifying_properties
          target_age_min target_age_max target_gender target_residents_only
          blackout_event_trigger blackout_period blackout_on_first_occurrence
          individual_intervention = (campaign.add (CampaignEvent.triggered e), none) ∧
        e.triggers = t :: ts) := by
  unfold add_triggered_campaign_delay_event
  match trigger_condition_list with
  | none => simp
  | some [] => simp
  | some (t :: ts) =>
    refine ⟨by simp, ?_⟩
    rintro t' ts' h
    simp only [Option.some.injEq] at h
    refine ⟨_, rfl, ?_⟩
    rw [setRestrictions_triggers]
    exact h

/-- C5 witness: with the non-empty trigger list ["Births"] the call adds a
triggered event whose trigger list is ["Births"], and with an empty trigger
list it raises the ValueError. -/
theorem triggered_event_trigger_list_validation_witness :
    (∃ e : TriggeredEvent,
      add_triggered_campaign_delay_event sampleCampaign 1 (some ["Births"]) (-1) 0 1
          none 1 365 none none 0 125 "All" false none 0 false PyIntervArg.pyNone =
        (sampleCampaign.add (CampaignEvent.triggered e), none) ∧
      e.triggers = ["Births"]) ∧
    ((add_triggered_campaign_delay_event sampleCampaign 1 (some []) (-1) 0 1
        none 1 365 none none 0 125 "All" false none 0 false PyIntervArg.pyNone).2 =
      some (BuilderError.valueError "Please define trigger_condition_list.\n")) :=
  ⟨(triggered_event_trigger_list_validation sampleCampaign 1 (some ["Births"]) (-1) 0 1
      none 1 365 none none 0 125 "All" false none 0 false PyIntervArg.pyNone).2
      "Births" [] rfl,
   (triggered_event_trigger_list_validation sampleCampaign 1 (some []) (-1) 0 1
      none 1 365 none none 0 125 "All" false none 0 false PyIntervArg.pyNone).1.mpr
      (Or.inr rfl)⟩

/-- C10: in `add_triggered_campaign_delay_event` a non-list
`individual_intervention` is wrapped into a singleton `Intervention_List`
while a list is passed through unchanged; in particular a `None` argument
yields `Intervention_List = [None]` rather than an error or an empty list. -/
theorem triggered_intervention_list_wrapping (campaign : Campaign)
    (start_day : Int)
    (listening_duration : Int) (delay_period_constant demographic_coverage : ℚ)
    (node_ids : Option (List Nat)) (repetitions timesteps_between_repetitions : Int)
    (ind_property_restrictions : Option (List PropRestriction))
    (disqualifying_properties : Option (List String))
    (target_age_min target_age_max : ℚ) (target_gender : String) (target_residents_only : Bool)
    (blackout_event_trigger : Option String) (blackout_period : ℚ)
    (blackout_on_first_occurrence : Bool) (individual_intervention : PyIntervArg)
    (t : String) (ts : List String) :
    ∃ e : TriggeredEvent,
      (add_triggered_campaign_delay_event campaign start_day (some (t :: ts))
        listening_duration delay_period_constant demographic_coverage node_ids repetitions
        timesteps_between_repetitions ind_property_restrictions disqualifying_properties
        target_age_min target_age_max target_gender target_residents_only
        blackout_event_trigger blackout_period blackout_on_first_occurrence
        individual_intervention).1 = campaign.add (CampaignEvent.triggered e) ∧
      e.interventionList =
        (match individual_intervention with
          | PyIntervArg.pyNone => [none]
          | PyIntervArg.obj i => [some i]
          | PyIntervArg.list xs => xs) := by
  unfold add_triggered_campaign_delay_event
  simp only [List.isEmpty_cons, Bool.false_eq_true, if_false]
  refine ⟨_, rfl, ?_⟩
  rw [setRestrictions_interventionList]
  cases individual_intervention <;> rfl

/-- C4: every successful call of `add_campaign_event` or
`add_triggered_campaign_delay_event` appends exactly one event to the
campaign's event list, and every call that raises leaves the campaign
unchanged. -/
theorem campaign_builders_append_exactly_one_event (campaign : Campaign)
    (start_day : Int) (demographic_coverage : ℚ) (target_num_individuals : Option Int)
    (node_ids : Option (List Nat)) (repetitions timesteps_between_repetitions : Int)
    (ind_property_restrictions node_property_restrictions : Option (List PropRestriction))
    (target_age_min target_age_max : ℚ) (target_gender : String) (target_residents_only : Bool)
    (individual_intervention node_intervention : PyIntervArg)
    (trigger_condition_list : Option (List String)) (listening_duration : Int)
    (delay_period_constant : ℚ) (disqualifying_properties : Option (List String))
    (blackout_event_trigger : Option String) (blackout_period : ℚ)
    (blackout_on_first_occurrence : Bool) :
    (((add_campaign_event campaign start_day demographic_coverage target_num_individuals
          node_ids repetitions timesteps_between_repetitions ind_property_restrictions
          node_property_restrictions target_age_min target_age_max target_gender
          target_residents_only individual_intervention node_intervention).2 = none →
        ∃ e, (add_campaign_event campaign start_day demographic_coverage
          target_num_individuals node_ids repetitions timesteps_between_repetitions
          ind_property_restrictions node_property_restrictions target_age_min target_age_max
          target_gender target_residents_only individual_intervention
          node_intervention).1.events = campaign.events ++ [e]) ∧
      ((add_campaign_event campaign start_day demographic_coverage target_num_individuals
          node_ids repetitions timesteps_between_repetitions ind_property_restrictions
          node_property_restrictions target_age_min target_age_max target_gender
          target_residents_only individual_intervention node_intervention).2 ≠ none →
        (add_campaign_event campaign start_day demographic_coverage target_num_individuals
          node_ids repetitions timesteps_between_repetitions ind_property_restrictions
          node_property_restrictions target_age_min target_age_max target_gender
          target_residents_only individual_intervention node_intervention).1 = campaign)) ∧
    (((add_triggered_campaign_delay_event campaign start_day trigger_condition_list
          listening_duration delay_period_constant demographic_coverage node_ids repetitions
          timesteps_between_repetitions ind_property_restrictions disqualifying_properties
          target_age_min target_age_max target_gender target_residents_only
          blackout_event_trigger blackout_period blackout_on_first_occurrence
          individual_intervention).2 = none →
        ∃ e, (add_triggered_campaign_delay_event campaign start_day trigger_condition_list
          listening_duration delay_period_constant demographic_coverage node_ids repetitions
          timesteps_between_repetitions ind_property_restrictions disqualifying_properties
          target_age_min target_age_max target_gender target_residents_only
          blackout_event_trigger blackout_period blackout_on_first_occurrence
          individual_intervention).1.events = campaign.events ++ [e]) ∧
      ((add_triggered_campaign_delay_event campaign start_day trigger_condition_list
          listening_duration delay_period_constant demographic_coverage node_ids repetitions
          timesteps_between_repetitions ind_property_restrictions disqualifying_properties
          target_age_min target_age_max target_gender target_residents_only
          blackout_event_trigger blackout_period blackout_on_first_occurrence
          individual_intervention).2 ≠ none →
        (add_triggered_campaign_delay_event campaign start_day trigger_condition_list
          listening_duration delay_period_constant demographic_coverage node_ids repetitions
          timesteps_between_repetitions ind_property_restrictions disqualifying_properties
          target_age_min target_age_max target_gender target_residents_only
          blackout_event_trigger blackout_period blackout_on_first_occurrence
          individual_intervention).1 = campaign)) := by
  constructor
  · rcases add_campaign_event_shape campaign start_day demographic_coverage
      target_num_individuals node_ids repetitions timesteps_between_repetitions
      ind_property_restrictions node_property_restrictions target_age_min target_age_max
      target_gender target_residents_only individual_intervention node_intervention with
      ⟨msg, h⟩ | ⟨e, h⟩
    · rw [h]
      exact ⟨fun h2 => absurd h2 (by simp), fun _ => rfl⟩
    · rw [h]
      exact ⟨fun _ => ⟨e, rfl⟩, fun h2 => absurd rfl h2⟩
  · rcases add_triggered_shape campaign start_day trigger_condition_list
      listening_duration delay_period_constant demographic_coverage node_ids repetitions
      timesteps_between_repetitions ind_property_restrictions disqualifying_properties
      target_age_min target_age_max target_gender target_residents_only
      blackout_event_trigger blackout_period blackout_on_first_occurrence
      individual_intervention with ⟨msg, h⟩ | ⟨e, h⟩
    · rw [h]
      exact ⟨fun h2 => absurd h2 (by simp), fun _ => rfl⟩
    · rw [h]
      exact ⟨fun _ => ⟨e, rfl⟩, fun h2 => absurd rfl h2⟩

/-- C4 witness: a successful scheduled call and a successful triggered call
each append exactly one event to a fresh campaign, and a failing scheduled
call and a failing triggered call each leave the campaign unchanged. -/
theorem campaign_builders_append_exactly_one_event_witness :
    (∃ e, (add_campaign_event sampleCampaign 1 1 none none 1 365 none none 0 125 "All"
        false (PyIntervArg.obj Intervention.standardDiagnostic)
        PyIntervArg.pyNone).1.events = sampleCampaign.events ++ [e]) ∧
    ((add_campaign_event sampleCampaign 1 1 none none 1 365 none none 0 125 "All"
        false PyIntervArg.pyNone PyIntervArg.pyNone).1 = sampleCampaign) ∧
    (∃ e, (add_triggered_campaign_delay_event sampleCampaign 1 (some ["Births"]) (-1) 0 1
        none 1 365 none none 0 125 "All" false none 0 false
        PyIntervArg.pyNone).1.events = sampleCampaign.events ++ [e]) ∧
    ((add_triggered_campaign_delay_event sampleCampaign 1 none (-1) 0 1
        none 1 365 none none 0 125 "All" false none 0 false
        PyIntervArg.pyNone).1 = sampleCampaign) :=
  ⟨(campaign_builders_append_exactly_one_event sampleCampaign 1 1 none none 1 365 none
      none 0 125 "All" false (PyIntervArg.obj Intervention.standardDiagnostic)
      PyIntervArg.pyNone (some ["Births"]) (-1) 0 none none 0 false).1.1 rfl,
   (campaign_builders_append_exactly_one_event sampleCampaign 1 1 none none 1 365 none
      none 0 125 "All" false PyIntervArg.pyNone PyIntervArg.pyNone (some ["Births"])
      (-1) 0 none none 0 false).1.2 (by simp [add_campaign_event, PyIntervArg.truthy]),
   (campaign_builders_append_exactly_one_event sampleCampaign 1 1 none none 1 365 none
      none 0 125 "All" false PyIntervArg.pyNone PyIntervArg.pyNone (some ["Births"])
      (-1) 0 none none 0 false).2.1 rfl,
   (campaign_builders_append_exactly_one_event sampleCampaign 1 1 none none 1 365 none
      none 0 125 "All" false PyIntervArg.pyNone PyIntervArg.pyNone none
      (-1) 0 none none 0 false).2.2 (by simp [add_triggered_campaign_delay_event])⟩

/-- C1 counterexample: a node-intervention call with demographic coverage 2
and target gender "Female" appends an event whose coordinator carries neither
value — the targeting parameters are not wired into the coordinator in the
node-intervention branch, contradicting the claim for that branch. -/
theorem add_campaign_event_node_branch_ignores_targeting :
    ((add_campaign_event sampleCampaign 1 2 none none 1 365
        (some [PropRestriction.dict [("Risk", "High")]]) none 5 10 "Female" true
        PyIntervArg.pyNone (PyIntervArg.obj Intervention.standardDiagnostic)).1.events.map
      (fun ev => (CampaignEvent.scheduledCoordinator ev).map
        (fun c => (c.demographicCoverage, c.targetGender)))) ≠ [some (2, "Female")] := by
  decide

/-- C1 amended: the targeting and restriction parameters are wired into the
constructed coordinator in the individual-intervention branch only; in the
node-intervention branch the coordinator receives just the repetition counts
and node property restrictions, leaving every targeting field at its schema
default. -/
theorem add_campaign_event_targeting_wiring (campaign : Campaign)
    (start_day : Int) (demographic_coverage : ℚ) (target_num_individuals : Option Int)
    (node_ids : Option (List Nat)) (repetitions timesteps_between_repetitions : Int)
    (ind_property_restrictions node_property_restrictions : Option (List PropRestriction))
    (target_age_min target_age_max : ℚ) (target_gender : String) (target_residents_only : Bool)
    (individual_intervention node_intervention : PyIntervArg) :
    (individual_intervention.truthy = true → node_intervention.truthy = false →
      ∃ e : CampaignEventObj,
        (add_campaign_event campaign start_day demographic_coverage target_num_individuals
          node_ids repetitions timesteps_between_repetitions ind_property_restrictions
          node_property_restrictions target_age_min target_age_max target_gender
          target_residents_only individual_intervention node_intervention).1 =
          campaign.add (CampaignEvent.scheduled e) ∧
        e.coordinator.demographicCoverage = demographic_coverage ∧
        e.coordinator.targetAgeMin = target_age_min ∧
        e.coordinator.targetAgeMax = target_age_max ∧
        e.coordinator.targetGender = target_gender ∧
        e.coordinator.targetResidentsOnly = target_residents_only ∧
        e.coordinator.propertyRestrictions = ind_property_restrictions) ∧
    (individual_intervention.truthy = false → node_intervention.truthy = true →
      ∃ e : CampaignEventObj,
        (add_campaign_event campaign start_day demographic_coverage target_num_individuals
          node_ids repetitions timesteps_between_repetitions ind_property_restrictions
          node_property_restrictions target_age_min target_age_max target_gender
          target_residents_only individual_intervention node_intervention).1 =
          campaign.add (CampaignEvent.scheduled e) ∧
        e.coordinator.demographicCoverage = defaultStandardEventCoordinator.demographicCoverage ∧
        e.coordinator.targetAgeMin = defaultStandardEventCoordinator.targetAgeMin ∧
        e.coordinator.targetAgeMax = defaultStandardEventCoordinator.targetAgeMax ∧
        e.coordinator.targetGender = defaultStandardEventCoordinator.targetGender ∧
        e.coordinator.targetResidentsOnly =
          defaultStandardEventCoordinator.targetResidentsOnly ∧
        e.coordinator.propertyRestrictions =
          defaultStandardEventCoordinator.propertyRestrictions ∧
        e.coordinator.numberRepetitions = repetitions ∧
        e.coordinator.timestepsBetweenRepetitions = timesteps_between_repetitions ∧
        e.coordinator.nodePropertyRestrictions = node_property_restrictions) := by
  constructor
  · intro hii hni
    unfold add_campaign_event
    rw [hii, hni]
    exact ⟨_, rfl, rfl, rfl, rfl, rfl, rfl, rfl⟩
  · intro hii hni
    unfold add_campaign_event
    rw [hii, hni]
    exact ⟨_, rfl, rfl, rfl, rfl, rfl, rfl, rfl, rfl, rfl, rfl⟩

/-- C1 witness: one individual-intervention call whose coordinator carries the
given targeting values, and one node-intervention call whose coordinator keeps
the schema defaults while receiving the repetition and node-restriction
arguments. -/
theorem add_campaign_event_targeting_wiring_witness :
    (∃ e : CampaignEventObj,
      (add_campaign_event sampleCampaign 1 2 none none 3 30 none none 5 10 "Female" true
        (PyIntervArg.obj Intervention.standardDiagnostic) PyIntervArg.pyNone).1 =
        sampleCampaign.add (CampaignEvent.scheduled e) ∧
      e.coordinator.demographicCoverage = 2 ∧
      e.coordinator.targetAgeMin = 5 ∧
      e.coordinator.targetAgeMax = 10 ∧
      e.coordinator.targetGender = "Female" ∧
      e.coordinator.targetResidentsOnly = true ∧
      e.coordinator.propertyRestrictions = none) ∧
    (∃ e : CampaignEventObj,
      (add_campaign_event sampleCampaign 1 2 none none 3 30 none none 5 10 "Female" true
        PyIntervArg.pyNone (PyIntervArg.obj Intervention.standardDiagnostic)).1 =
        sampleCampaign.add (CampaignEvent.scheduled e) ∧
      e.coordinator.demographicCoverage = defaultStandardEventCoordinator.demographicCoverage ∧
      e.coordinator.targetAgeMin = defaultStandardEventCoordinator.targetAgeMin ∧
      e.coordinator.targetAgeMax = defaultStandardEventCoordinator.targetAgeMax ∧
      e.coordinator.targetGender = defaultStandardEventCoordinator.targetGender ∧
      e.coordinator.targetResidentsOnly =
        defaultStandardEventCoordinator.targetResidentsOnly ∧
      e.coordinator.propertyRestrictions =
        defaultStandardEventCoordinator.propertyRestrictions ∧
      e.coordinator.numberRepetitions = 3 ∧
      e.coordinator.timestepsBetweenRepetitions = 30 ∧
      e.coordinator.nodePropertyRestrictions = none) :=
  ⟨(add_campaign_event_targeting_wiring sampleCampaign 1 2 none none 3 30 none none 5 10
      "Female" true (PyIntervArg.obj Intervention.standardDiagnostic)
      PyIntervArg.pyNone).1 rfl rfl,
   (add_campaign_event_targeting_wiring sampleCampaign 1 2 none none 3 30 none none 5 10
      "Female" true PyIntervArg.pyNone
      (PyIntervArg.obj Intervention.standardDiagnostic)).2 rfl rfl⟩

/-- C7: `add_scheduled_space_spraying` constructs a node-targeted
`SpaceSpraying` intervention whose `Killing_Config` is the waning effect built
from the three killing parameters, and delegates scheduling to
`add_campaign_event`: the call succeeds, appending one scheduled event whose
coordinator carries the given repetition counts and node property
restrictions and holds that intervention as its intervention config, with
the given start day and node ids on the event. -/
theorem space_spraying_schedules_node_intervention (campaign : Campaign)
    (start_day : Int) (node_ids : Option (List Nat))
    (node_property_restrictions : Option (List PropRestriction))
    (repetitions timesteps_between_repetitions : Int)
    (spray_coverage : ℚ) (insecticide : String)
    (killing_initial_effect killing_box_duration killing_decay_time_constant : ℚ)
    (intervention_name : String) (cost_to_consumer : ℚ)
    (disqualifying_properties : Option (List String))
    (dont_allow_duplicates : Bool) (new_property_value : String) :
    ∃ e : CampaignEventObj,
      add_scheduled_space_spraying campaign start_day node_ids node_property_restrictions
          repetitions timesteps_between_repetitions spray_coverage insecticide
          killing_initial_effect killing_box_duration killing_decay_time_constant
          intervention_name cost_to_consumer disqualifying_properties
          dont_allow_duplicates new_property_value =
        (campaign.add (CampaignEvent.scheduled e), none) ∧
      e.startDay = start_day ∧
      e.nodesetConfig = do_nodes node_ids ∧
      e.coordinator.numberRepetitions = repetitions ∧
      e.coordinator.timestepsBetweenRepetitions = timesteps_between_repetitions ∧
      e.coordinator.nodePropertyRestrictions = node_property_restrictions ∧
      e.coordinator.interventionConfig =
        NodeInterventionConfig.direct (PyIntervArg.obj (Intervention.spray
          (_space_spraying campaign spray_coverage insecticide killing_initial_effect
            killing_box_duration killing_decay_time_constant intervention_name
            cost_to_consumer disqualifying_properties dont_allow_duplicates
            new_property_value))) ∧
      (_space_spraying campaign spray_coverage insecticide killing_initial_effect
        killing_box_duration killing_decay_time_constant intervention_name
        cost_to_consumer disqualifying_properties dont_allow_duplicates
        new_property_value).className = "SpaceSpraying" ∧
      (_space_spraying campaign spray_coverage insecticide killing_initial_effect
        killing_box_duration killing_decay_time_constant intervention_name
        cost_to_consumer disqualifying_properties dont_allow_duplicates
        new_property_value).killingConfig =
        some (get_waning_from_params killing_initial_effect killing_box_duration
          killing_decay_time_constant) :=
  ⟨_, rfl, rfl, rfl, rfl, rfl, rfl, rfl, rfl, rfl⟩

/-- C8: `_spatial_repellent` instantiates the schema class named
"SpatialRepelling" and assigns the waning effect built from the three
repelling parameters to the intervention's `Killing_Config` field, while the
`Repelling_Config` field is never set. -/
theorem spatial_repellent_uses_killing_config (campaign : Campaign)
    (spray_coverage : ℚ) (insecticide : String)
    (repelling_initial_effect repelling_box_duration repelling_decay_time_constant : ℚ)
    (intervention_name : String) (cost_to_consumer : ℚ)
    (disqualifying_properties : Option (List String))
    (dont_allow_duplicates : Bool) (new_property_value : String) :
    (_spatial_repellent campaign spray_coverage insecticide repelling_initial_effect
      repelling_box_duration repelling_decay_time_constant intervention_name
      cost_to_consumer disqualifying_properties dont_allow_duplicates
      new_property_value).className = "SpatialRepelling" ∧
    (_spatial_repellent campaign spray_coverage insecticide repelling_initial_effect
      repelling_box_duration repelling_decay_time_constant intervention_name
      cost_to_consumer disqualifying_properties dont_allow_duplicates
      new_property_value).killingConfig =
      some (get_waning_from_params repelling_initial_effect repelling_box_duration
        repelling_decay_time_constant) ∧
    (_spatial_repellent campaign spray_coverage insecticide repelling_initial_effect
      repelling_box_duration repelling_decay_time_constant intervention_name
      cost_to_consumer disqualifying_properties dont_allow_duplicates
      new_property_value).repellingConfig = none :=
  ⟨rfl, rfl, rfl⟩
